import Mathlib

/-
Verification of the choresapp repository: the weekly quota scheduler and the
comment/photo attachment pipeline.

Embedding conventions:
- Calendar dates are modelled as integers counting days from 1970-01-01, so
  that date arithmetic on naive YYYY-MM-DD dates is plain integer arithmetic.
  The spec (section 6) states that the lexicographic order on the YYYY-MM-DD
  string form used by the source coincides with chronological order, so the
  integer order is a faithful model of every date comparison in the source.
  The JavaScript Date.getDay convention (0 = Sunday .. 6 = Saturday) maps an
  epoch-day integer d to (d + 4) mod 7, since day 0 (1970-01-01) is a Thursday.
- The MySQL expression YEARWEEK(date, 1) used by the backend of
  src/unnamed/part_001 assigns equal values to two dates exactly when the two
  dates lie in the same Monday-through-Sunday week, so equality of
  YEARWEEK(date, 1) values is modelled as equality of Monday week starts.
- JavaScript falsiness of possibly-absent request fields is modelled with
  Option (absent = none); a falsy empty string for title and assignee is
  modelled as the empty string.
- The external image-hosting collaborator (Cloudinary) is a parameter of type
  PhotoFile to Except String String: an error models a failed upload or an
  unconfigured uploader, an ok value is the returned secure url.
- Fresh identifiers (nanoid / Math.random) and timestamps are parameters.
-/

/-! ## Week-window utility (frontend src/frontend/src/app.jsx, lines 51-66) -/

/-- JavaScript Date.getDay for an epoch-day integer: 0 = Sunday .. 6 = Saturday.
Day 0 (1970-01-01) is a Thursday, hence the offset 4. -/
def jsGetDay (d : Int) : Int := (d + 4) % 7

/-- startOfWeekMon from app.jsx: move the date back to the Monday on or before
it. diff = (day === 0 ? -6 : 1) - day. -/
def startOfWeekMon (d : Int) : Int :=
  d + ((if jsGetDay d = 0 then -6 else 1) - jsGetDay d)

/-- addDays from app.jsx. -/
def addDays (d n : Int) : Int := d + n

/-- Two dates lie in the same Monday-through-Sunday week. This models both the
frontend week-range test and equality of MySQL YEARWEEK(date, 1) values. -/
def sameWeek (a b : Int) : Bool := startOfWeekMon a == startOfWeekMon b

/-! ## Task entries and the quota scheduler (backend src/unnamed/part_001) -/

/-- A stored task entry, matching the chores table of src/unnamed/part_001
(id, title, assignee, date, type, done). The quota-limited category is the
type string NoDinner. -/
structure Chore where
  id : String
  title : String
  assignee : String
  date : Int
  type : String
  done : Bool
  deriving Repr, DecidableEq

/-- The JSON body of POST /api/chores. Absent fields are none; a falsy empty
title or assignee is the empty string. The id field can be present in a
request body but is never read by the part_001 handler. -/
structure CreateReq where
  id : Option String := none
  title : String := ""
  assignee : String := ""
  type : Option String := none
  date : Option Int := none
  dueDate : Option Int := none
  deriving Repr, DecidableEq

/-- The effective date of a create request: req.body.date or req.body.dueDate
(backward compatibility fallback in part_001, line 62). -/
def effectiveDate (req : CreateReq) : Option Int :=
  req.date.orElse (fun _ => req.dueDate)

/-- The distinct error outcomes of POST /api/chores in part_001. -/
inductive CreateError where
  | dateRequired
  | titleAssigneeRequired
  | quotaExceeded
  deriving Repr, DecidableEq

/-- COUNT(*) FROM chores WHERE type = NoDinner AND YEARWEEK(date,1) =
YEARWEEK(d,1): the number of quota-limited entries in the week of d. -/
def countNoDinner (store : List Chore) (d : Int) : Nat :=
  store.countP (fun c => c.type == "NoDinner" && sameWeek c.date d)

/-- The same count excluding every row whose id equals the given id
(the id<>? clause of the update re-check in part_001, line 129). -/
def countNoDinnerExcl (store : List Chore) (id : String) (d : Int) : Nat :=
  store.countP (fun c => c.id != id && (c.type == "NoDinner" && sameWeek c.date d))

/-- POST /api/chores of src/unnamed/part_001, lines 59-105: validate the date,
validate title and assignee for non-quota categories, enforce the cap of 2
NoDinner entries per Monday-Sunday week, then insert with a fresh id and
done = 0.  freshId models the nanoid() call. -/
def createChore (freshId : String) (store : List Chore) (req : CreateReq) :
    Except CreateError (Chore × List Chore) :=
  let ty := req.type.getD "Other"
  match effectiveDate req with
  | none => .error .dateRequired
  | some date =>
    if ty ≠ "NoDinner" ∧ (req.title = "" ∨ req.assignee = "") then
      .error .titleAssigneeRequired
    else if ty = "NoDinner" ∧ 2 ≤ countNoDinner store date then
      .error .quotaExceeded
    else
      let c : Chore :=
        { id := freshId,
          title := if ty = "NoDinner" then "Make your own" else req.title,
          assignee := if ty = "NoDinner" then "" else req.assignee,
          date := date,
          type := ty,
          done := false }
      .ok (c, store ++ [c])

/-- A sequence of create calls applied in order; a failing call leaves the
store unchanged (the handler returns an error response without inserting). -/
def applyCreates (store : List Chore) : List (String × CreateReq) → List Chore
  | [] => store
  | r :: rs =>
    match createChore r.1 store r.2 with
    | .ok (_, s') => applyCreates s' rs
    | .error _ => applyCreates store rs

/-- The JSON body of PUT /api/chores/:id: a partial update; absent fields are
none. -/
structure UpdateReq where
  title : Option String := none
  assignee : Option String := none
  date : Option Int := none
  dueDate : Option Int := none
  type : Option String := none
  done : Option Bool := none
  deriving Repr, DecidableEq

/-- The dueDate-to-date normalization at the start of the PUT handler
(part_001, lines 113-115): copy dueDate into date when date is absent, then
drop dueDate. -/
def normalizeUpdate (u : UpdateReq) : UpdateReq :=
  if u.dueDate.isSome && u.date.isNone then
    { u with date := u.dueDate, dueDate := none }
  else
    { u with dueDate := none }

/-- The object spread next = (...current, ...updates): fields present in the
update override the stored entry, the rest are unchanged; the id is not part
of the update body. -/
def applyUpdate (c : Chore) (u : UpdateReq) : Chore :=
  { id := c.id,
    title := u.title.getD c.title,
    assignee := u.assignee.getD c.assignee,
    date := u.date.getD c.date,
    type := u.type.getD c.type,
    done := u.done.getD c.done }

/-- The distinct outcomes of PUT /api/chores/:id in part_001. -/
inductive UpdResult where
  | ok (store : List Chore)
  | notFound
  | quotaExceeded
  deriving Repr, DecidableEq

/-- PUT /api/chores/:id of src/unnamed/part_001, lines 108-157: when the
normalized update sets the type to NoDinner or carries a date, fetch the
current row (404 when absent), build the merged row, and when the merged row
is NoDinner re-check the cap of 2 against the target week counting only rows
with a different id; on violation answer the quota error without writing.
Otherwise apply the partial update to the matching row. -/
def updateChore (store : List Chore) (id : String) (u0 : UpdateReq) : UpdResult :=
  let u := normalizeUpdate u0
  if u.type = some "NoDinner" ∨ u.date.isSome then
    match store.find? (fun c => c.id == id) with
    | none => .notFound
    | some current =>
      let next := applyUpdate current u
      if next.type = "NoDinner" ∧ 2 ≤ countNoDinnerExcl store id next.date then
        .quotaExceeded
      else
        .ok (store.map (fun c => if c.id == id then applyUpdate c u else c))
  else
    .ok (store.map (fun c => if c.id == id then applyUpdate c u else c))

/-- DELETE /api/chores/:id of src/unnamed/part_001, lines 160-169: DELETE FROM
chores WHERE id = ?, then respond ok: true unconditionally. The Bool is the
success flag of the response. -/
def deleteChore (store : List Chore) (id : String) : List Chore × Bool :=
  (store.filter (fun c => c.id != id), true)

/-- GET /api/chores of src/backend/server.js, lines 50-58 (the guard
if (start and end) is the same in src/unnamed/part_001, lines 45-48): the
inclusive date-range restriction is applied only when both bounds are
present. -/
def listChores (store : List Chore) (start? stop? : Option Int) : List Chore :=
  match start?, stop? with
  | some s, some e => store.filter (fun c => decide (s ≤ c.date) && decide (c.date ≤ e))
  | _, _ => store

/-! ## JSON-document store variants (backend src/backend/server.js) -/

/-- A chore record of the JSON-document store revisions: the POST handler
spreads the raw request body over the generated fields, so every data field is
whatever the body carried (absent = none). -/
structure JsonChore where
  id : String
  createdAt : String
  title : Option String := none
  assignee : Option String := none
  date : Option Int := none
  type : Option String := none
  done : Option Bool := none
  deriving Repr, DecidableEq

/-- A POST /api/chores body for the JSON-document store revisions; any field,
including id, may be present. -/
structure JsonBody where
  id : Option String := none
  title : Option String := none
  assignee : Option String := none
  date : Option Int := none
  type : Option String := none
  done : Option Bool := none
  deriving Repr, DecidableEq

/-- POST /api/chores of src/backend/server.js, lines 60-70: build
newItem = (id: random, createdAt, ...req.body) and push it, with no
validation and no quota check. Because the body is spread after the generated
id, a body id overrides the server-assigned one. -/
def createChoreJson (freshId createdAt : String) (store : List JsonChore)
    (body : JsonBody) : JsonChore × List JsonChore :=
  let c : JsonChore :=
    { id := body.id.getD freshId,
      createdAt := createdAt,
      title := body.title,
      assignee := body.assignee,
      date := body.date,
      type := body.type,
      done := body.done }
  (c, store ++ [c])

/-- The weekly NoDinner count over the JSON-document store. -/
def countNoDinnerJson (store : List JsonChore) (d : Int) : Nat :=
  store.countP (fun c => c.type == some "NoDinner" && c.date.any (fun e => sameWeek e d))

/-- DELETE /api/chores/:id of src/backend/server.js, lines 81-86: filter the
id out and respond success: true unconditionally. -/
def deleteChoreJson (store : List JsonChore) (id : String) : List JsonChore × Bool :=
  (store.filter (fun c => c.id != id), true)

/-! ## Comment / attachment pipeline
(frontend src/frontend/src/app.jsx, backend src/backend/server.js lines
214-243 and src/unnamed/part_000 lines 98-132) -/

/-- The JavaScript string trim: drop leading and trailing whitespace. It is
defined over the character list so that concrete calls reduce inside the
kernel. -/
def jsTrim (s : String) : String :=
  ⟨((s.data.dropWhile Char.isWhitespace).reverse.dropWhile
      Char.isWhitespace).reverse⟩

/-- An attachment candidate: the size and content type of the browser File
object. The source reads only the size; the content type is carried by the
file but never inspected in code. -/
structure PhotoFile where
  size : Nat
  type : String
  deriving Repr, DecidableEq

/-- The comment form state of the frontend (app.jsx, lines 103-109). -/
structure CommentForm where
  date : String
  name : String
  isAnonymous : Bool
  text : String
  photoFile : Option PhotoFile
  deriving Repr, DecidableEq

/-- The JSON payload submitComment posts to the comments API
(app.jsx, lines 202-208). -/
structure CommentPayload where
  date : String
  name : String
  isAnonymous : Bool
  text : String
  photo : Option String
  deriving Repr, DecidableEq

/-- The observable outcome of submitComment: one of the three early returns,
or the payload handed to the comments API. -/
inductive SubmitAction where
  | rejectEmpty
  | rejectTooLarge
  | uploadFailed (msg : String)
  | post (payload : CommentPayload)
  deriving Repr, DecidableEq

/-- submitComment of src/frontend/src/app.jsx, lines 185-227: reject when the
trimmed text is empty and no photo is attached; with a photo, reject above
3 * 1024 * 1024 bytes, then hand the file to the hosting collaborator and
abort on its failure; otherwise post the payload, an empty name when
anonymous and the trimmed name otherwise. The upload argument models
uploadPhotoToCloudinary, whose throw (unconfigured or failed request) is the
error case. -/
def submitComment (upload : PhotoFile → Except String String)
    (form : CommentForm) : SubmitAction :=
  if jsTrim form.text = "" ∧ form.photoFile = none then
    .rejectEmpty
  else
    match form.photoFile with
    | some f =>
      if 3 * 1024 * 1024 < f.size then
        .rejectTooLarge
      else
        match upload f with
        | .error msg => .uploadFailed msg
        | .ok url =>
          .post { date := form.date,
                  name := if form.isAnonymous then "" else jsTrim form.name,
                  isAnonymous := form.isAnonymous,
                  text := jsTrim form.text,
                  photo := some url }
    | none =>
      .post { date := form.date,
              name := if form.isAnonymous then "" else jsTrim form.name,
              isAnonymous := form.isAnonymous,
              text := jsTrim form.text,
              photo := none }

/-- The body fields read by the comment handlers. The two handlers compare
the multipart string fields against the string true (and server.js also
accepts a boolean true), so the flags are modelled as the Boolean outcome of
those comparisons; absent fields are none. part_000 additionally reads a
field named anonymous. -/
structure CommentBody where
  name : Option String := none
  isAnonymous : Option Bool := none
  anonymousField : Option Bool := none
  text : Option String := none
  date : Option String := none
  deriving Repr, DecidableEq

/-- A stored comment record (server.js, lines 230-238). -/
structure Comment where
  id : String
  createdAt : String
  name : String
  anonymous : Bool
  text : String
  date : String
  photoUrl : Option String
  deriving Repr, DecidableEq

/-- POST /api/comments of src/backend/server.js, lines 214-243: when a file is
attached, try the Cloudinary upload, but the catch block only logs a failure,
so a failed upload leaves photoUrl null and the comment is stored regardless;
the record is always pushed and returned. today models the
new Date toISOString slice default for a missing date. -/
def postComment (cloudUpload : PhotoFile → Except String String)
    (freshId createdAt today : String) (store : List Comment)
    (body : CommentBody) (file : Option PhotoFile) : Comment × List Comment :=
  let photoUrl : Option String :=
    match file with
    | none => none
    | some f =>
      match cloudUpload f with
      | .ok url => some url
      | .error _ => none
  let c : Comment :=
    { id := freshId,
      createdAt := createdAt,
      name := body.name.getD "",
      anonymous := body.isAnonymous.getD false,
      text := body.text.getD "",
      date := body.date.getD today,
      photoUrl := photoUrl }
  (c, store ++ [c])

/-- POST /api/comments of src/unnamed/part_000, lines 98-132: the whole
handler body is wrapped in try/catch, so a failing Cloudinary upload answers
the 500 Upload failed error before the comment is built and nothing is
stored; otherwise the comment is stored with the returned url (or null when
no file was attached). -/
def postComment000 (cloudUpload : PhotoFile → Except String String)
    (freshId createdAt today : String) (store : List Comment)
    (body : CommentBody) (file : Option PhotoFile) :
    Except String (Comment × List Comment) :=
  match file with
  | some f =>
    match cloudUpload f with
    | .error _ => .error "Upload failed"
    | .ok url =>
      let c : Comment :=
        { id := freshId,
          createdAt := createdAt,
          name := body.name.getD "",
          anonymous := body.isAnonymous.getD false || body.anonymousField.getD false,
          text := body.text.getD "",
          date := body.date.getD today,
          photoUrl := some url }
      .ok (c, store ++ [c])
  | none =>
    let c : Comment :=
      { id := freshId,
        createdAt := createdAt,
        name := body.name.getD "",
        anonymous := body.isAnonymous.getD false || body.anonymousField.getD false,
        text := body.text.getD "",
        date := body.date.getD today,
        photoUrl := none }
    .ok (c, store ++ [c])

/-- The outcome of a comment creation that goes through the frontend form. -/
inductive PipelineResult where
  | rejected (a : SubmitAction)
  | ok (c : Comment) (store : List Comment)
  deriving Repr, DecidableEq

/-- The end-to-end comment creation path: the submitComment gate of the
frontend followed, when it posts, by the server.js persist step receiving the
payload fields as its body (no multipart file accompanies the JSON payload,
so the server upload branch is not taken). -/
def createCommentPipeline (upload : PhotoFile → Except String String)
    (freshId createdAt : String) (store : List Comment)
    (form : CommentForm) : PipelineResult :=
  match submitComment upload form with
  | .post p =>
    let out := postComment upload freshId createdAt p.date store
      { name := some p.name,
        isAnonymous := some p.isAnonymous,
        anonymousField := none,
        text := some p.text,
        date := some p.date }
      none
    .ok out.1 out.2
  | a => .rejected a

/-! ## Helper lemmas -/

theorem startOfWeekMon_closed (d : Int) : startOfWeekMon d = d - (d + 3) % 7 := by
  unfold startOfWeekMon jsGetDay
  split <;> omega

theorem sameWeek_iff (a b : Int) :
    sameWeek a b = true ↔ startOfWeekMon a = startOfWeekMon b := by
  simp [sameWeek]

theorem countNoDinner_append_one (s : List Chore) (c : Chore) (d : Int) :
    countNoDinner (s ++ [c]) d =
      countNoDinner s d + (if c.type == "NoDinner" && sameWeek c.date d then 1 else 0) := by
  simp [countNoDinner, List.countP_append, List.countP_cons]

theorem countNoDinner_congr (s : List Chore) {a b : Int}
    (h : startOfWeekMon a = startOfWeekMon b) :
    countNoDinner s a = countNoDinner s b := by
  unfold countNoDinner
  congr 1
  funext c
  simp [sameWeek, h]

theorem countP_id_partition (l : List Chore) (i : String) (p : Chore → Bool) :
    l.countP p =
      l.countP (fun c => c.id != i && p c) + l.countP (fun c => c.id == i && p c) := by
  induction l with
  | nil => simp
  | cons a l ih =>
    simp only [List.countP_cons]
    by_cases h : a.id = i <;> simp [h, ih] <;> omega

theorem countNoDinnerExcl_lt (store : List Chore) (i : String) (d : Int)
    {cur : Chore} (hmem : cur ∈ store) (hid : cur.id = i)
    (hnd : cur.type = "NoDinner") (hwk : sameWeek cur.date d = true) :
    countNoDinnerExcl store i d < countNoDinner store d := by
  have hpart := countP_id_partition store i
    (fun c => c.type == "NoDinner" && sameWeek c.date d)
  have hpos : 0 < store.countP
      (fun c => c.id == i && (c.type == "NoDinner" && sameWeek c.date d)) := by
    rw [List.countP_pos_iff]
    exact ⟨cur, hmem, by simp [hid, hnd, hwk]⟩
  unfold countNoDinnerExcl countNoDinner at *
  omega

theorem createChore_preserves_cap {freshId : String} {store : List Chore}
    {req : CreateReq} {pr : Chore × List Chore}
    (hinv : ∀ w, countNoDinner store w ≤ 2)
    (h : createChore freshId store req = .ok pr) :
    ∀ w, countNoDinner pr.2 w ≤ 2 := by
  intro w
  unfold createChore at h
  cases hd : effectiveDate req with
  | none => rw [hd] at h; exact absurd h (by simp)
  | some date =>
    rw [hd] at h
    simp only [] at h
    split_ifs at h with h1 h2 h3
    · simp only [Except.ok.injEq] at h
      have hs : pr.2 = store ++
          [{ id := freshId, title := "Make your own", assignee := "",
             date := date, type := req.type.getD "Other", done := false }] := by
        rw [← h]
      rw [hs, countNoDinner_append_one]
      by_cases hw : sameWeek date w = true
      · have hwk : startOfWeekMon date = startOfWeekMon w := (sameWeek_iff _ _).1 hw
        have hle : countNoDinner store date ≤ 1 := by
          by_contra hgt
          exact h2 ⟨h3, by omega⟩
        have hcg := countNoDinner_congr store hwk
        simp only [h3, hw, beq_self_eq_true, Bool.true_and, Bool.and_true, if_true]
        omega
      · have hw' : sameWeek date w = false := by
          cases hsw : sameWeek date w
          · rfl
          · exact absurd hsw hw
        simp only [hw', Bool.and_false, if_false]
        simpa using hinv w
    · simp only [Except.ok.injEq] at h
      have hs : pr.2 = store ++
          [{ id := freshId, title := req.title, assignee := req.assignee,
             date := date, type := req.type.getD "Other", done := false }] := by
        rw [← h]
      rw [hs, countNoDinner_append_one]
      have hne : (req.type.getD "Other" == "NoDinner") = false := by
        simpa using h3
      simp only [hne, Bool.false_and, if_false]
      simpa using hinv w

theorem applyCreates_cap (reqs : List (String × CreateReq)) :
    ∀ store, (∀ w, countNoDinner store w ≤ 2) →
      ∀ w, countNoDinner (applyCreates store reqs) w ≤ 2 := by
  induction reqs with
  | nil => intro store h w; exact h w
  | cons r rs ih =>
    intro store h w
    cases hc : createChore r.1 store r.2 with
    | error e =>
      simp only [applyCreates, hc]
      exact ih store h w
    | ok pr =>
      obtain ⟨c1, s1⟩ := pr
      simp only [applyCreates, hc]
      exact ih s1 (createChore_preserves_cap h hc) w

/-! ## Claim theorems -/

/-- C3: the week-window function is pure and deterministic; for every date d,
the window start startOfWeekMon d is the Monday on or before d (a Monday in
the JavaScript getDay convention, at most d) and the window end
addDays (startOfWeekMon d) 6 is the following Sunday, with
start <= d <= end; the function is idempotent; and every date drawn from the
same Monday-through-Sunday span yields the same window. -/
theorem weekWindow_monday_window (d : Int) :
    jsGetDay (startOfWeekMon d) = 1 ∧
    jsGetDay (addDays (startOfWeekMon d) 6) = 0 ∧
    startOfWeekMon d ≤ d ∧
    d ≤ addDays (startOfWeekMon d) 6 ∧
    startOfWeekMon (startOfWeekMon d) = startOfWeekMon d ∧
    (∀ e : Int, startOfWeekMon d ≤ e → e ≤ addDays (startOfWeekMon d) 6 →
      startOfWeekMon e = startOfWeekMon d) := by
  refine ⟨?_, ?_, ?_, ?_, ?_, ?_⟩
  · simp only [startOfWeekMon_closed, jsGetDay]; omega
  · simp only [startOfWeekMon_closed, jsGetDay, addDays]; omega
  · simp only [startOfWeekMon_closed]; omega
  · simp only [startOfWeekMon_closed, addDays]; omega
  · simp only [startOfWeekMon_closed]; omega
  · intro e h1 h2
    simp only [startOfWeekMon_closed, addDays] at *
    omega

theorem weekWindow_monday_window_witness :
    startOfWeekMon 3 = startOfWeekMon 0 :=
  (weekWindow_monday_window 0).2.2.2.2.2 3 (by decide) (by decide)

/-- C1 (amended): for the quota-checking create of src/unnamed/part_001
(cap 2): every sequence of create calls preserves the invariant that each
Monday-Sunday week holds at most 2 NoDinner entries, and a create whose
effective date lands in a week already holding at least 2 NoDinner entries
fails with the quota error (an error performs no insert: the store is only
replaced on an ok result). The JSON-store create of src/backend/server.js
does not satisfy this; see the counterexample. -/
theorem create_weekly_quota_invariant :
    (∀ (store : List Chore), (∀ w, countNoDinner store w ≤ 2) →
       ∀ (reqs : List (String × CreateReq)) (w : Int),
         countNoDinner (applyCreates store reqs) w ≤ 2) ∧
    (∀ (freshId : String) (store : List Chore) (req : CreateReq) (dt : Int),
       effectiveDate req = some dt →
       req.type.getD "Other" = "NoDinner" →
       2 ≤ countNoDinner store dt →
       createChore freshId store req = .error .quotaExceeded) := by
  constructor
  · intro store h reqs w
    exact applyCreates_cap reqs store h w
  · intro freshId store req dt hd hty hcnt
    unfold createChore
    rw [hd]
    simp [hty, hcnt]

theorem create_weekly_quota_invariant_witness :
    createChore "f3"
      [{ id := "f1", title := "Make your own", assignee := "", date := 0,
         type := "NoDinner", done := false },
       { id := "f2", title := "Make your own", assignee := "", date := 1,
         type := "NoDinner", done := false }]
      { type := some "NoDinner", date := some 2 } = .error .quotaExceeded ∧
    countNoDinner (applyCreates []
      [("f1", { type := some "NoDinner", date := some 2 })]) 0 ≤ 2 := by
  constructor
  · exact create_weekly_quota_invariant.2 "f3" _ _ 2 rfl rfl (by decide)
  · exact create_weekly_quota_invariant.1 [] (fun w => Nat.zero_le 2) _ 0

/-- C1 (counterexample): the JSON-store create of src/backend/server.js
performs no quota check. With four NoDinner entries already in the week of
day 0 (its Monday-Sunday week spans days -3 to 3), a fifth create in the same
week succeeds and the weekly count reaches 5, exceeding both observed caps
(2 and 4), so the claimed invariant and the claimed quota failure are both
false for this handler. -/
theorem createChoreJson_exceeds_cap :
    countNoDinnerJson
      [{ id := "a", createdAt := "t1", date := some 0, type := some "NoDinner" },
       { id := "b", createdAt := "t2", date := some 1, type := some "NoDinner" },
       { id := "c", createdAt := "t3", date := some 2, type := some "NoDinner" },
       { id := "d", createdAt := "t4", date := some 3, type := some "NoDinner" }] 0 = 4 ∧
    countNoDinnerJson (createChoreJson "srv" "t5"
      [{ id := "a", createdAt := "t1", date := some 0, type := some "NoDinner" },
       { id := "b", createdAt := "t2", date := some 1, type := some "NoDinner" },
       { id := "c", createdAt := "t3", date := some 2, type := some "NoDinner" },
       { id := "d", createdAt := "t4", date := some 3, type := some "NoDinner" }]
      { title := some "Make your own", date := some 3,
        type := some "NoDinner", done := some false }).2 0 = 5 := by
  decide

/-- C2: the update of src/unnamed/part_001 re-runs the quota check against the
target week counting only rows with a different id. Part one: a date-only
update that keeps a NoDinner entry inside its current week never self-blocks
(given the week is within the cap) and writes the updated row. Part two: when
the merged row is NoDinner and at least 2 other rows occupy its target week,
the update answers the quota error, whose result carries no store, so no
write occurs. Part three: an update carrying only the done flag skips the
quota check entirely and always succeeds with the flag applied. -/
theorem update_quota_recheck :
    (∀ (store : List Chore) (i : String) (cur : Chore) (d' : Int),
       countNoDinner store d' ≤ 2 →
       store.find? (fun c => c.id == i) = some cur →
       cur.type = "NoDinner" →
       sameWeek cur.date d' = true →
       updateChore store i { date := some d' } =
         .ok (store.map (fun c => if c.id == i then { c with date := d' } else c))) ∧
    (∀ (store : List Chore) (i : String) (u0 : UpdateReq) (cur : Chore),
       ((normalizeUpdate u0).type = some "NoDinner" ∨
         (normalizeUpdate u0).date.isSome) →
       store.find? (fun c => c.id == i) = some cur →
       (applyUpdate cur (normalizeUpdate u0)).type = "NoDinner" →
       2 ≤ countNoDinnerExcl store i (applyUpdate cur (normalizeUpdate u0)).date →
       updateChore store i u0 = .quotaExceeded) ∧
    (∀ (store : List Chore) (i : String) (b : Bool),
       updateChore store i { done := some b } =
         .ok (store.map (fun c => if c.id == i then { c with done := b } else c))) := by
  refine ⟨?_, ?_, ?_⟩
  · intro store i cur d' hcnt hfind htype hwk
    have hmem := List.mem_of_find?_eq_some hfind
    have hid : cur.id = i := by
      have := List.find?_some hfind
      simpa using this
    have hlt := countNoDinnerExcl_lt store i d' hmem hid htype hwk
    unfold updateChore
    simp only []
    rw [if_pos (Or.inr rfl :
      (normalizeUpdate { date := some d' } : UpdateReq).type = some "NoDinner" ∨
        (normalizeUpdate { date := some d' } : UpdateReq).date.isSome = true)]
    rw [hfind]
    simp only []
    rw [if_neg]
    · rfl
    · intro hc
      have hD : (applyUpdate cur (normalizeUpdate ({ date := some d' } : UpdateReq))).date
          = d' := rfl
      rw [hD] at hc
      have := hc.2
      omega
  · intro store i u0 cur htrig hfind htype hcnt
    unfold updateChore
    simp only []
    rw [if_pos htrig, hfind]
    simp only []
    rw [if_pos ⟨htype, hcnt⟩]
  · intro store i b
    rfl

theorem update_quota_recheck_witness :
    updateChore
      [{ id := "a", title := "Make your own", assignee := "", date := 0,
         type := "NoDinner", done := false }] "a" { date := some 1 } =
      .ok [{ id := "a", title := "Make your own", assignee := "", date := 1,
             type := "NoDinner", done := false }] ∧
    updateChore
      [{ id := "x", title := "Make your own", assignee := "", date := 0,
         type := "NoDinner", done := false },
       { id := "y", title := "Make your own", assignee := "", date := 1,
         type := "NoDinner", done := false },
       { id := "t", title := "Dishes", assignee := "Adam", date := 14,
         type := "Other", done := false }] "t"
      { date := some 2, type := some "NoDinner" } = .quotaExceeded ∧
    updateChore
      [{ id := "a", title := "Dinner", assignee := "Mike", date := 0,
         type := "Dinner", done := false }] "a" { done := some true } =
      .ok [{ id := "a", title := "Dinner", assignee := "Mike", date := 0,
             type := "Dinner", done := true }] := by
  refine ⟨?_, ?_, ?_⟩
  · exact update_quota_recheck.1
      [{ id := "a", title := "Make your own", assignee := "", date := 0,
         type := "NoDinner", done := false }] "a"
      { id := "a", title := "Make your own", assignee := "", date := 0,
        type := "NoDinner", done := false } 1
      (by decide) rfl rfl (by decide)
  · exact update_quota_recheck.2.1
      [{ id := "x", title := "Make your own", assignee := "", date := 0,
         type := "NoDinner", done := false },
       { id := "y", title := "Make your own", assignee := "", date := 1,
         type := "NoDinner", done := false },
       { id := "t", title := "Dishes", assignee := "Adam", date := 14,
         type := "Other", done := false }] "t"
      { date := some 2, type := some "NoDinner" }
      { id := "t", title := "Dishes", assignee := "Adam", date := 14,
        type := "Other", done := false }
      (Or.inl rfl) rfl rfl (by decide)
  · exact update_quota_recheck.2.2
      [{ id := "a", title := "Dinner", assignee := "Mike", date := 0,
         type := "Dinner", done := false }] "a" true

/-- C8 (amended): for the part_001 create, every successful call stores an
entry whose id is the freshly generated server-side id (the id field a caller
may place in the body is never read by this handler), whose done flag is
false, and the returned record equals the stored record: the resulting store
is the prior store with exactly the returned record appended. The JSON-store
create of src/backend/server.js does not satisfy this; see the
counterexample. -/
theorem create_assigns_fresh_id_done_false :
    ∀ (freshId : String) (store : List Chore) (req : CreateReq)
      (c : Chore) (s' : List Chore),
      createChore freshId store req = .ok (c, s') →
      c.id = freshId ∧ c.done = false ∧ s' = store ++ [c] := by
  intro freshId store req c s' h
  unfold createChore at h
  cases hd : effectiveDate req with
  | none => rw [hd] at h; exact absurd h (by simp)
  | some date =>
    rw [hd] at h
    simp only [] at h
    split_ifs at h with h1 h2 h3
    · simp only [Except.ok.injEq, Prod.mk.injEq] at h
      obtain ⟨hc, hs⟩ := h
      subst hc
      subst hs
      exact ⟨rfl, rfl, rfl⟩
    · simp only [Except.ok.injEq, Prod.mk.injEq] at h
      obtain ⟨hc, hs⟩ := h
      subst hc
      subst hs
      exact ⟨rfl, rfl, rfl⟩

theorem create_assigns_fresh_id_done_false_witness :
    ({ id := "n1", title := "Dinner", assignee := "Adam", date := 0,
       type := "Dinner", done := false } : Chore).id = "n1" ∧
    ({ id := "n1", title := "Dinner", assignee := "Adam", date := 0,
       type := "Dinner", done := false } : Chore).done = false ∧
    ([{ id := "n1", title := "Dinner", assignee := "Adam", date := 0,
        type := "Dinner", done := false }] : List Chore) =
      [] ++ [{ id := "n1", title := "Dinner", assignee := "Adam", date := 0,
               type := "Dinner", done := false }] :=
  create_assigns_fresh_id_done_false "n1" []
    { id := some "evil", title := "Dinner", assignee := "Adam",
      type := some "Dinner", date := some 0 }
    { id := "n1", title := "Dinner", assignee := "Adam", date := 0,
      type := "Dinner", done := false }
    [{ id := "n1", title := "Dinner", assignee := "Adam", date := 0,
       type := "Dinner", done := false }]
    rfl

/-- C8 (counterexample): the JSON-store create of src/backend/server.js
spreads the request body after the generated id, so a caller-supplied id
overrides the server-assigned one, and the stored done flag is whatever the
body carried rather than false. -/
theorem createChoreJson_caller_id_wins :
    (createChoreJson "srv" "t0" []
      { id := some "hack", title := some "Dinner", assignee := some "Adam",
        date := some 0, type := some "Dinner", done := some true }).1.id = "hack" ∧
    "hack" ≠ "srv" ∧
    (createChoreJson "srv" "t0" []
      { id := some "hack", title := some "Dinner", assignee := some "Adam",
        date := some 0, type := some "Dinner", done := some true }).1.done
      = some true := by
  decide

/-- C9 (amended): deletion removes every stored entry with the given id,
keeps every other entry, and always reports success; no not-found outcome
exists in the code, and no quota re-check occurs: deletion never increases
any weekly NoDinner count. -/
theorem delete_removes_and_always_succeeds :
    ∀ (store : List Chore) (i : String),
      (deleteChore store i).2 = true ∧
      (∀ c : Chore, c ∈ (deleteChore store i).1 ↔ c ∈ store ∧ c.id ≠ i) ∧
      (∀ w : Int, countNoDinner ((deleteChore store i).1) w ≤ countNoDinner store w) := by
  intro store i
  refine ⟨rfl, ?_, ?_⟩
  · intro c
    simp [deleteChore, List.mem_filter]
  · intro w
    exact (List.filter_sublist store).countP_le _

theorem delete_removes_and_always_succeeds_witness :
    (deleteChore
      [{ id := "a", title := "Dinner", assignee := "Adam", date := 0,
         type := "Dinner", done := false }] "a").2 = true :=
  (delete_removes_and_always_succeeds
    [{ id := "a", title := "Dinner", assignee := "Adam", date := 0,
       type := "Dinner", done := false }] "a").1

/-- C9 (counterexample): deleting an id that no stored entry has still
responds success and leaves the store unchanged; the claimed not-found
failure does not exist in the code (src/backend/server.js answers
success true unconditionally, and src/unnamed/part_001 answers ok true
unconditionally). -/
theorem deleteChoreJson_success_on_absent :
    deleteChoreJson
      [{ id := "a", createdAt := "t0", date := some 0, type := some "Dinner" }]
      "x" =
      ([{ id := "a", createdAt := "t0", date := some 0, type := some "Dinner" }],
        true) := by
  decide

/-- C10: the list operation restricts by the inclusive date range only when
both bounds are present; when either bound is absent the filter is skipped
and the whole store is returned. -/
theorem list_filter_requires_both_bounds :
    (∀ (store : List Chore) (s e : Int) (c : Chore),
       c ∈ listChores store (some s) (some e) ↔
         c ∈ store ∧ s ≤ c.date ∧ c.date ≤ e) ∧
    (∀ (store : List Chore) (s? e? : Option Int),
       s? = none ∨ e? = none → listChores store s? e? = store) := by
  constructor
  · intro store s e c
    simp [listChores, List.mem_filter]
  · intro store s? e? h
    rcases h with h | h
    · subst h
      cases e? <;> rfl
    · subst h
      cases s? <;> rfl

theorem list_filter_requires_both_bounds_witness :
    listChores
      [{ id := "a", title := "Dinner", assignee := "Adam", date := 0,
         type := "Dinner", done := false }] (some 5) none =
      [{ id := "a", title := "Dinner", assignee := "Adam", date := 0,
         type := "Dinner", done := false }] :=
  list_filter_requires_both_bounds.2
    [{ id := "a", title := "Dinner", assignee := "Adam", date := 0,
       type := "Dinner", done := false }] (some 5) none (Or.inr rfl)

theorem submitComment_post_name (upload : PhotoFile → Except String String)
    (form : CommentForm) (p : CommentPayload)
    (h : submitComment upload form = .post p) :
    p.name = if form.isAnonymous then "" else jsTrim form.name := by
  unfold submitComment at h
  by_cases hgate : jsTrim form.text = "" ∧ form.photoFile = none
  · rw [if_pos hgate] at h
    cases h
  · rw [if_neg hgate] at h
    cases hf : form.photoFile with
    | none =>
      rw [hf] at h
      simp only [] at h
      cases h
      rfl
    | some f =>
      rw [hf] at h
      simp only [] at h
      by_cases hsize : 3 * 1024 * 1024 < f.size
      · rw [if_pos hsize] at h
        cases h
      · rw [if_neg hsize] at h
        cases hu : upload f with
        | error m =>
          rw [hu] at h
          simp only [] at h
          cases h
        | ok url =>
          rw [hu] at h
          simp only [] at h
          cases h
          rfl

/-- C4 (amended): comment creation through the frontend gate of submitComment
composed with the server persist step: with no attachment, a submission whose
text trims to the empty string is rejected before any persistence (the
rejection is client-side and the text is trimmed first, so whitespace-only
text counts as empty), and a submission whose text has non-whitespace
content succeeds and stores a comment with a null photo reference appended
to the prior list. -/
theorem comment_create_empty_vs_text :
    ∀ (upload : PhotoFile → Except String String) (freshId createdAt : String)
      (store : List Comment) (form : CommentForm),
      form.photoFile = none →
      ((jsTrim form.text = "" →
         createCommentPipeline upload freshId createdAt store form =
           .rejected .rejectEmpty) ∧
       (jsTrim form.text ≠ "" →
         ∃ c : Comment,
           createCommentPipeline upload freshId createdAt store form =
             .ok c (store ++ [c]) ∧
           c.photoUrl = none ∧ c.text = jsTrim form.text)) := by
  intro upload freshId createdAt store form hfile
  constructor
  · intro htext
    unfold createCommentPipeline submitComment
    rw [if_pos ⟨htext, hfile⟩]
  · intro htext
    refine ⟨{ id := freshId, createdAt := createdAt,
              name := if form.isAnonymous then "" else jsTrim form.name,
              anonymous := form.isAnonymous, text := jsTrim form.text,
              date := form.date, photoUrl := none }, ?_, rfl, rfl⟩
    unfold createCommentPipeline submitComment
    rw [if_neg (fun hc => htext hc.1), hfile]
    rfl

theorem comment_create_empty_vs_text_witness :
    (∃ c : Comment,
       createCommentPipeline (fun _ => Except.ok "u") "i" "t" []
         { date := "2024-01-01", name := "Ann", isAnonymous := false,
           text := "hello", photoFile := none } = .ok c ([] ++ [c]) ∧
       c.photoUrl = none ∧ c.text = jsTrim "hello") ∧
    createCommentPipeline (fun _ => Except.ok "u") "i" "t" []
      { date := "2024-01-01", name := "", isAnonymous := false,
        text := "", photoFile := none } = .rejected .rejectEmpty := by
  constructor
  · exact (comment_create_empty_vs_text (fun _ => Except.ok "u") "i" "t" []
      { date := "2024-01-01", name := "Ann", isAnonymous := false,
        text := "hello", photoFile := none } rfl).2 (by decide)
  · exact (comment_create_empty_vs_text (fun _ => Except.ok "u") "i" "t" []
      { date := "2024-01-01", name := "", isAnonymous := false,
        text := "", photoFile := none } rfl).1 (by decide)

/-- C4 (counterexample): with text a single space and no attachment the text
is non-empty, yet the operation is rejected without storing anything
(submitComment trims the text before the emptiness test), contradicting the
claim that any non-empty text with no attachment succeeds. -/
theorem pipeline_whitespace_comment_rejected :
    (" " : String) ≠ "" ∧
    createCommentPipeline (fun _ => Except.ok "u") "i" "t" []
      { date := "2024-01-01", name := "Ann", isAnonymous := false,
        text := " ", photoFile := none } = .rejected .rejectEmpty := by
  constructor
  · decide
  · decide

/-- C5 (amended): when the upload of a supplied attachment fails, the comment
handler of src/unnamed/part_000 fails with the upload-failed error; only an
ok result carries a store, so nothing is persisted. The handler of
src/backend/server.js lines 214-243 instead catches the failure, only logs
it, and persists the comment with a null photo reference (see the
counterexample), so the no-persist guarantee holds only for the part_000
revision. -/
theorem upload_failure_no_persist_part000 :
    ∀ (cloudUpload : PhotoFile → Except String String)
      (freshId createdAt today : String) (store : List Comment)
      (body : CommentBody) (f : PhotoFile) (e : String),
      cloudUpload f = .error e →
      postComment000 cloudUpload freshId createdAt today store body (some f) =
        .error "Upload failed" := by
  intro up freshId createdAt today store body f e hf
  unfold postComment000
  simp only []
  rw [hf]

theorem upload_failure_no_persist_part000_witness :
    postComment000 (fun _ => Except.error "boom") "i" "t" "2024-01-01" []
      { text := some "hi" } (some { size := 10, type := "image/png" }) =
      .error "Upload failed" :=
  upload_failure_no_persist_part000 (fun _ => Except.error "boom") "i" "t"
    "2024-01-01" [] { text := some "hi" } { size := 10, type := "image/png" }
    "boom" rfl

/-- C5 (counterexample): the server.js comment handler persists a record even
when the upload of the supplied attachment fails: starting from an empty
comment list, the failing call stores exactly one comment, with a null photo
reference, so the list observed afterwards differs from the empty list
observed before. -/
theorem postComment_persists_after_upload_failure :
    (postComment (fun _ => Except.error "boom") "i" "t" "2024-01-01" []
      { text := some "hi" } (some { size := 10, type := "image/png" })).2 =
      [(postComment (fun _ => Except.error "boom") "i" "t" "2024-01-01" []
        { text := some "hi" } (some { size := 10, type := "image/png" })).1] ∧
    (postComment (fun _ => Except.error "boom") "i" "t" "2024-01-01" []
      { text := some "hi" }
      (some { size := 10, type := "image/png" })).1.photoUrl = none :=
  ⟨rfl, rfl⟩

/-- C6 (amended): the empty-name normalization for anonymous comments is
enforced by the frontend: every comment created through the submitComment
form path stores an empty name when the anonymous flag is set, and the
trimmed supplied name otherwise. The server handler alone stores the
caller-supplied name unchanged even when the anonymous flag is set (see the
counterexample). -/
theorem pipeline_anonymous_name_suppressed :
    ∀ (upload : PhotoFile → Except String String) (freshId createdAt : String)
      (store : List Comment) (form : CommentForm) (c : Comment)
      (s' : List Comment),
      createCommentPipeline upload freshId createdAt store form = .ok c s' →
      (form.isAnonymous = true → c.name = "") ∧
      (form.isAnonymous = false → c.name = jsTrim form.name) := by
  intro upload freshId createdAt store form c s' h
  unfold createCommentPipeline at h
  cases hs : submitComment upload form with
  | rejectEmpty => rw [hs] at h; simp only [] at h; cases h
  | rejectTooLarge => rw [hs] at h; simp only [] at h; cases h
  | uploadFailed m => rw [hs] at h; simp only [] at h; cases h
  | post p =>
    rw [hs] at h
    simp only [] at h
    have hname := submitComment_post_name upload form p hs
    simp only [PipelineResult.ok.injEq] at h
    obtain ⟨hc, _⟩ := h
    subst hc
    constructor
    · intro ha
      show p.name = ""
      rw [hname, ha]
      simp
    · intro ha
      show p.name = jsTrim form.name
      rw [hname, ha]
      simp

theorem pipeline_anonymous_name_suppressed_witness :
    ((true : Bool) = true →
      (Comment.mk "i" "t" "" true (jsTrim "hi") "2024-01-01" none).name = "") ∧
    ((true : Bool) = false →
      (Comment.mk "i" "t" "" true (jsTrim "hi") "2024-01-01" none).name =
        jsTrim "Bob") :=
  pipeline_anonymous_name_suppressed (fun _ => Except.ok "u") "i" "t" []
    { date := "2024-01-01", name := "Bob", isAnonymous := true,
      text := "hi", photoFile := none }
    (Comment.mk "i" "t" "" true (jsTrim "hi") "2024-01-01" none)
    ([] ++ [Comment.mk "i" "t" "" true (jsTrim "hi") "2024-01-01" none])
    rfl

/-- C6 (counterexample): the server handler of src/backend/server.js lines
230-243 does not suppress the name: a direct call with a supplied name and
the anonymous flag set stores the comment with anonymous true and the
supplied non-empty name. -/
theorem postComment_keeps_name_when_anonymous :
    (postComment (fun _ => Except.ok "u") "i" "t" "2024-01-01" []
      { name := some "Bob", isAnonymous := some true, text := some "hi",
        date := some "2024-01-01" } none).1.anonymous = true ∧
    (postComment (fun _ => Except.ok "u") "i" "t" "2024-01-01" []
      { name := some "Bob", isAnonymous := some true, text := some "hi",
        date := some "2024-01-01" } none).1.name = "Bob" ∧
    ("Bob" : String) ≠ "" := by
  refine ⟨rfl, rfl, by decide⟩

/-- C7 (amended): an attachment larger than 3 * 1024 * 1024 bytes is rejected
locally: for every behaviour of the hosting collaborator the submission stops
at the size check before any upload, and the pipeline stores nothing. No
content-type check exists in the code (the file input restricts the picker
with an accept attribute only), so a non-image attachment that reaches the
form is not rejected; see the counterexample. -/
theorem oversize_attachment_rejected_locally :
    ∀ (upload : PhotoFile → Except String String) (freshId createdAt : String)
      (store : List Comment) (form : CommentForm) (f : PhotoFile),
      form.photoFile = some f →
      3 * 1024 * 1024 < f.size →
      submitComment upload form = .rejectTooLarge ∧
      createCommentPipeline upload freshId createdAt store form =
        .rejected .rejectTooLarge := by
  intro upload freshId createdAt store form f hf hsize
  have hsub : submitComment upload form = .rejectTooLarge := by
    unfold submitComment
    rw [if_neg (fun hc => by rw [hf] at hc; cases hc.2), hf]
    simp only []
    rw [if_pos hsize]
  refine ⟨hsub, ?_⟩
  unfold createCommentPipeline
  rw [hsub]

theorem oversize_attachment_rejected_locally_witness :
    submitComment (fun _ => Except.ok "u")
      { date := "2024-01-01", name := "Ann", isAnonymous := false,
        text := "hi", photoFile := some { size := 4000000, type := "image/png" } } =
      .rejectTooLarge ∧
    createCommentPipeline (fun _ => Except.ok "u") "i" "t" []
      { date := "2024-01-01", name := "Ann", isAnonymous := false,
        text := "hi", photoFile := some { size := 4000000, type := "image/png" } } =
      .rejected .rejectTooLarge :=
  oversize_attachment_rejected_locally (fun _ => Except.ok "u") "i" "t" []
    { date := "2024-01-01", name := "Ann", isAnonymous := false,
      text := "hi", photoFile := some { size := 4000000, type := "image/png" } }
    { size := 4000000, type := "image/png" } rfl (by decide)

/-- C7 (counterexample): a small attachment whose content type is not an
image is not rejected locally: submitComment hands it to the hosting
collaborator and posts the returned url, so no local content-type rejection
exists, contradicting the claim. -/
theorem submitComment_accepts_non_image :
    ("text/plain".take 6 ≠ "image/") ∧
    submitComment (fun _ => Except.ok "u")
      { date := "2024-01-01", name := "Ann", isAnonymous := false,
        text := "hi", photoFile := some { size := 10, type := "text/plain" } } =
      .post { date := "2024-01-01", name := jsTrim "Ann", isAnonymous := false,
              text := jsTrim "hi", photo := some "u" } := by
  constructor
  · decide
  · rfl
